import Mathlib

/-!
Shallow embedding of the runtime-loop core of a single-page portfolio site:

* `generateParticles` — the particle field generator (positions in a cube,
  colors as a base triple with bounded additive jitter);
* `constellationFrame` — the per-frame field animator: guard on a null render
  handle, overwrite of the rotation with an autonomous, time-linear tumble,
  then one exponential-smoothing step toward the pointer-derived target;
* `animateCursorStep` / `cursorTicks` — the self-rescheduling cursor-follower
  loop easing the outline toward the raw pointer position;
* `cursorMouseEnter` / `cursorMouseLeave` — the hover style transitions;
* `mouseInit` / `handleMouseMove` — the shared normalized pointer state.

Machine numbers (JS doubles) are modelled as exact rationals; `Math.random()`
is modelled as an injected stream of rationals consumed in call order, with
its range `[0, 1)` carried as a hypothesis.
-/

namespace Portfolio

/-- Red channel of the base particle color, hex `#00ff41` decoded. -/
def baseColorR : ℚ := 0

/-- Green channel of the base particle color, hex `#00ff41` decoded. -/
def baseColorG : ℚ := 1

/-- Blue channel of the base particle color, hex `#00ff41` decoded. -/
def baseColorB : ℚ := 65 / 255

/-- Position of the i-th particle.  The generator's loop body draws three
random samples and maps each through `(random - 0.5) * 15`; particle `i`
consumes stream slots `5*i .. 5*i+2` (five samples are drawn per iteration,
the last two for the color). -/
def particlePosition (rand : ℕ → ℚ) (i : ℕ) : ℚ × ℚ × ℚ :=
  ((rand (5 * i) - 1/2) * 15,
   (rand (5 * i + 1) - 1/2) * 15,
   (rand (5 * i + 2) - 1/2) * 15)

/-- Color of the i-th particle: red is the base value, green and blue get
additive jitter `random * 0.2` and `random * 0.5` respectively, consuming
stream slots `5*i+3` and `5*i+4`. -/
def particleColor (rand : ℕ → ℚ) (i : ℕ) : ℚ × ℚ × ℚ :=
  (baseColorR,
   baseColorG + rand (5 * i + 3) * (1/5),
   baseColorB + rand (5 * i + 4) * (1/2))

/-- The particle generator: `count` particles, each a position triple and a
color triple, built in loop order from the random stream. -/
def generateParticles (count : ℕ) (rand : ℕ → ℚ) :
    List (ℚ × ℚ × ℚ) × List (ℚ × ℚ × ℚ) :=
  ((List.range count).map (particlePosition rand),
   (List.range count).map (particleColor rand))

/-- Rendered rotation state of the points object (the two animated axes). -/
structure Rotation where
  x : ℚ
  y : ℚ
deriving DecidableEq, Repr

/-- Dereferencing the render handle: faults on a null handle, exactly the
fatal condition the frame guard exists to prevent. -/
def derefPoints : Option Rotation → Except String Rotation
  | none => Except.error "cannot read rotation of null"
  | some r => Except.ok r

/-- One exponential-smoothing step: the `+=` update pattern
`rotation += (target - rotation) * damping`. -/
def smoothStep (rotation target damping : ℚ) : ℚ :=
  rotation + (target - rotation) * damping

/-- The per-frame field animator.  Mirrors the source line by line: early
return when the handle is null; otherwise the rotation is first overwritten
with the autonomous time-linear rotation (`time * 0.05` on x, `time * 0.03`
on y), then one smoothing step with damping `0.05` is applied toward the
pointer-derived targets (`mouse * 0.5`, cross-wired: the y pointer component
drives the x axis and vice versa). -/
def constellationFrame (points : Option Rotation) (time : ℚ)
    (mouse : ℚ × ℚ) : Except String (Option Rotation) :=
  if points.isNone then Except.ok points
  else do
    let r ← derefPoints points
    let r := { r with x := time * (1/20) }
    let r := { r with y := time * (3/100) }
    let targetX := mouse.1 * (1/2)
    let targetY := mouse.2 * (1/2)
    let r := { r with x := smoothStep r.x targetY (1/20) }
    let r := { r with y := smoothStep r.y targetX (1/20) }
    Except.ok (some r)

/-- Shared state of the cursor follower: raw pointer coordinates written by
the move handler, eased outline coordinates owned by the animation loop. -/
structure CursorPos where
  mouseX : ℚ
  mouseY : ℚ
  outlineX : ℚ
  outlineY : ℚ
deriving DecidableEq, Repr

/-- One execution of the cursor follower's frame callback: each eased
coordinate moves fraction `speed = 0.5` of the remaining distance toward the
raw coordinate, and the callback unconditionally requests the next frame
(the returned flag records that `requestAnimationFrame` was called). -/
def animateCursorStep (s : CursorPos) : CursorPos × Bool :=
  let speed : ℚ := 1/2
  let outlineX := s.outlineX + (s.mouseX - s.outlineX) * speed
  let outlineY := s.outlineY + (s.mouseY - s.outlineY) * speed
  ({ s with outlineX := outlineX, outlineY := outlineY }, true)

/-- The trajectory of the cursor follower loop: state after `n` ticks from
start state `s` (the raw pointer is held fixed between ticks). -/
def cursorTicks (s : CursorPos) : ℕ → CursorPos
  | 0 => s
  | n + 1 => (animateCursorStep (cursorTicks s n)).1

/-- Style state of the two cursor layers, as written by the hover handlers. -/
structure CursorStyle where
  outlineTransform : String
  outlineBackground : String
  dotTransform : String
deriving DecidableEq, Repr

/-- The pointer-enter handler on an interactive element: assigns fixed style
values (scale up the outline, translucent fill, scale down the dot). -/
def cursorMouseEnter (_ : CursorStyle) : CursorStyle :=
  { outlineTransform := "translate(-50%, -50%) scale(1.5)"
    outlineBackground := "rgba(255, 255, 255, 0.1)"
    dotTransform := "translate(-50%, -50%) scale(0.5)" }

/-- The pointer-leave handler: reverts both layers to the default values. -/
def cursorMouseLeave (_ : CursorStyle) : CursorStyle :=
  { outlineTransform := "translate(-50%, -50%) scale(1)"
    outlineBackground := "transparent"
    dotTransform := "translate(-50%, -50%) scale(1)" }

/-- Initial shared pointer state, `useRef([0, 0])`. -/
def mouseInit : ℚ × ℚ := (0, 0)

/-- The pointer-move handler: normalizes viewport pixel coordinates to
`[-1, 1]`, negating the vertical axis. -/
def handleMouseMove (clientX clientY innerWidth innerHeight : ℚ) : ℚ × ℚ :=
  ((clientX / innerWidth) * 2 - 1,
   -(clientY / innerHeight) * 2 + 1)

/-- Helper: the trajectory at tick 0 is the start state. -/
theorem cursorTicks_zero (s : CursorPos) : cursorTicks s 0 = s := rfl

/-- Helper: the trajectory advances by one frame-callback execution. -/
theorem cursorTicks_succ (s : CursorPos) (n : ℕ) :
    cursorTicks s (n + 1) = (animateCursorStep (cursorTicks s n)).1 := rfl

/-- Helper: closed form of one frame of the field animator on a live handle:
the prior rotation is overwritten by the autonomous rotation, then one
smoothing step runs toward each pointer-derived target. -/
theorem constellationFrame_some (r : Rotation) (time : ℚ) (mouse : ℚ × ℚ) :
    constellationFrame (some r) time mouse
      = Except.ok (some
          ⟨smoothStep (time * (1/20)) (mouse.2 * (1/2)) (1/20),
           smoothStep (time * (3/100)) (mouse.1 * (1/2)) (1/20)⟩) := rfl

/-- C2: the smoothing step satisfies the exact recurrence
`rotation' = rotation + (target - rotation) * damping` for every previous
rotation value; with damping 0.05, rotation 0 and target 1.0, one step gives
0.05 and a second step gives 0.0975. -/
theorem smoothStep_recurrence :
    (∀ rotation target damping : ℚ,
      smoothStep rotation target damping
        = rotation + (target - rotation) * damping) ∧
    smoothStep 0 1 0.05 = 0.05 ∧
    smoothStep (smoothStep 0 1 0.05) 1 0.05 = 0.0975 := by
  refine ⟨fun _ _ _ => rfl, by norm_num [smoothStep], by norm_num [smoothStep]⟩

/-- C3: every tick of the cursor follower updates each eased coordinate by
`eased' = eased + (raw - eased) * 0.5`; starting from eased (0,0) with raw
held at (100,100), one tick gives (50,50) and two ticks give (75,75). -/
theorem animateCursor_easing :
    (∀ s : CursorPos,
      (animateCursorStep s).1.outlineX
          = s.outlineX + (s.mouseX - s.outlineX) * 0.5 ∧
      (animateCursorStep s).1.outlineY
          = s.outlineY + (s.mouseY - s.outlineY) * 0.5) ∧
    (cursorTicks ⟨100, 100, 0, 0⟩ 1).outlineX = 50 ∧
    (cursorTicks ⟨100, 100, 0, 0⟩ 1).outlineY = 50 ∧
    (cursorTicks ⟨100, 100, 0, 0⟩ 2).outlineX = 75 ∧
    (cursorTicks ⟨100, 100, 0, 0⟩ 2).outlineY = 75 := by
  have h1 : cursorTicks ⟨100, 100, 0, 0⟩ 1 = ⟨100, 100, 50, 50⟩ := by
    rw [show (1 : ℕ) = 0 + 1 from rfl, cursorTicks_succ, cursorTicks_zero]
    simp only [animateCursorStep, CursorPos.mk.injEq]
    norm_num
  have h2 : cursorTicks ⟨100, 100, 0, 0⟩ 2 = ⟨100, 100, 75, 75⟩ := by
    rw [show (2 : ℕ) = 1 + 1 from rfl, cursorTicks_succ, h1]
    simp only [animateCursorStep, CursorPos.mk.injEq]
    norm_num
  refine ⟨fun s => ⟨?_, ?_⟩, ?_, ?_, ?_, ?_⟩ <;>
    simp only [animateCursorStep, h1, h2] <;> norm_num

/-- C8: once started the cursor follower loop runs forever: every execution
of the frame callback requests the next frame, so along any trajectory every
tick is followed by another tick — there is no stop condition. -/
theorem animateCursor_reschedules :
    ∀ (s : CursorPos) (n : ℕ),
      (animateCursorStep (cursorTicks s n)).2 = true :=
  fun _ _ => rfl

/-- C7: the field animator never fails: with a null render handle the frame
returns the state untouched without dereferencing, and with a handle present
every frame returns ok — no input produces an error. -/
theorem constellationFrame_never_fails :
    (∀ (time : ℚ) (mouse : ℚ × ℚ),
      constellationFrame none time mouse = Except.ok none) ∧
    (∀ (points : Option Rotation) (time : ℚ) (mouse : ℚ × ℚ),
      ∃ out, constellationFrame points time mouse = Except.ok out) := by
  refine ⟨fun _ _ => rfl, ?_⟩
  rintro (_ | r) time mouse
  · exact ⟨none, rfl⟩
  · exact ⟨_, rfl⟩

/-- C9: the rotation produced by one frame is independent of the rotation
left by the previous frame: two runs with the same time and pointer state
but different prior rotations agree, and each axis equals 0.95 times the
autonomous rotation plus 0.05 times the pointer-derived target offset. -/
theorem constellationFrame_prior_independent :
    ∀ (r₁ r₂ : Rotation) (time : ℚ) (mouse : ℚ × ℚ),
      constellationFrame (some r₁) time mouse
        = constellationFrame (some r₂) time mouse ∧
      constellationFrame (some r₁) time mouse
        = Except.ok (some
            ⟨0.95 * (time * 0.05) + 0.05 * (mouse.2 * 0.5),
             0.95 * (time * 0.03) + 0.05 * (mouse.1 * 0.5)⟩) := by
  intro r₁ r₂ time mouse
  refine ⟨rfl, ?_⟩
  rw [constellationFrame_some]
  simp only [smoothStep, Except.ok.injEq, Option.some.injEq, Rotation.mk.injEq]
  constructor <;> ring_nf

/-- C1 counterexample: with prior rotation (1,1), time 0 and pointer (0,0),
the code yields rotation (0,0), not the claimed
`prev + 0.05 * ((autonomous + target) - prev)` which is (0.95, 0.95). -/
theorem constellationFrame_not_smoothed_from_prior :
    constellationFrame (some ⟨1, 1⟩) 0 (0, 0)
      ≠ Except.ok (some
          ⟨1 + ((0 * 0.05 + 0 * 0.5) - 1) * 0.05,
           1 + ((0 * 0.03 + 0 * 0.5) - 1) * 0.05⟩) := by
  rw [constellationFrame_some]
  norm_num [smoothStep]

/-- C1 amended: each frame the animator overwrites the rotation with the
autonomous rotation, discarding the previous frame's value, then applies one
0.05-damped smoothing step toward the pointer target offset: for every prior
rotation the new value is `autonomous + 0.05 * (target - autonomous)` on
both animated axes. -/
theorem constellationFrame_overwrite_then_smooth :
    ∀ (prev : Rotation) (time : ℚ) (mouse : ℚ × ℚ),
      constellationFrame (some prev) time mouse
        = Except.ok (some
            ⟨time * 0.05 + (mouse.2 * 0.5 - time * 0.05) * 0.05,
             time * 0.03 + (mouse.1 * 0.5 - time * 0.03) * 0.05⟩) := by
  intro prev time mouse
  rw [constellationFrame_some]
  simp only [smoothStep, Except.ok.injEq, Option.some.injEq, Rotation.mk.injEq]
  constructor <;> ring_nf

/-- C4: with every random sample in [0,1), the generator yields exactly
`count` positions and `count` colors; every position component lies within
±7.5; the red channel is the base value, green lies within its 0.2 jitter
bound above base and blue within its 0.5 jitter bound above base. -/
theorem generateParticles_spec (count : ℕ) (rand : ℕ → ℚ)
    (hrand : ∀ i, 0 ≤ rand i ∧ rand i < 1) :
    (generateParticles count rand).1.length = count ∧
    (generateParticles count rand).2.length = count ∧
    (∀ p ∈ (generateParticles count rand).1,
      -7.5 ≤ p.1 ∧ p.1 ≤ 7.5 ∧ -7.5 ≤ p.2.1 ∧ p.2.1 ≤ 7.5 ∧
      -7.5 ≤ p.2.2 ∧ p.2.2 ≤ 7.5) ∧
    (∀ c ∈ (generateParticles count rand).2,
      c.1 = baseColorR ∧
      baseColorG ≤ c.2.1 ∧ c.2.1 < baseColorG + 0.2 ∧
      baseColorB ≤ c.2.2 ∧ c.2.2 < baseColorB + 0.5) := by
  refine ⟨by simp [generateParticles], by simp [generateParticles], ?_, ?_⟩
  · intro p hp
    simp only [generateParticles, List.mem_map, List.mem_range] at hp
    obtain ⟨i, _, rfl⟩ := hp
    obtain ⟨h0x, h1x⟩ := hrand (5 * i)
    obtain ⟨h0y, h1y⟩ := hrand (5 * i + 1)
    obtain ⟨h0z, h1z⟩ := hrand (5 * i + 2)
    simp only [particlePosition]
    norm_num
    refine ⟨by nlinarith, by nlinarith, by nlinarith, by nlinarith,
      by nlinarith, by nlinarith⟩
  · intro c hc
    simp only [generateParticles, List.mem_map, List.mem_range] at hc
    obtain ⟨i, _, rfl⟩ := hc
    obtain ⟨h0g, h1g⟩ := hrand (5 * i + 3)
    obtain ⟨h0b, h1b⟩ := hrand (5 * i + 4)
    simp only [particleColor]
    norm_num
    refine ⟨by nlinarith, by nlinarith, by nlinarith, by nlinarith⟩

/-- C4 witness: the generator specification instantiated at count 2 with the
constant random stream 1/2. -/
theorem generateParticles_spec_witness :
    (generateParticles 2 (fun _ => 1/2)).1.length = 2 ∧
    (generateParticles 2 (fun _ => 1/2)).2.length = 2 ∧
    (∀ p ∈ (generateParticles 2 (fun _ => 1/2)).1,
      -7.5 ≤ p.1 ∧ p.1 ≤ 7.5 ∧ -7.5 ≤ p.2.1 ∧ p.2.1 ≤ 7.5 ∧
      -7.5 ≤ p.2.2 ∧ p.2.2 ≤ 7.5) ∧
    (∀ c ∈ (generateParticles 2 (fun _ => 1/2)).2,
      c.1 = baseColorR ∧
      baseColorG ≤ c.2.1 ∧ c.2.1 < baseColorG + 0.2 ∧
      baseColorB ≤ c.2.2 ∧ c.2.2 < baseColorB + 0.5) :=
  generateParticles_spec 2 (fun _ => 1/2) (fun _ => by norm_num)

/-- C5: the shared pointer state starts at (0,0), and every pointer-move
whose pixel coordinates lie inside the viewport writes a vector with both
components in [-1, 1]. -/
theorem mouse_state_in_range :
    mouseInit = (0, 0) ∧
    ∀ clientX clientY innerWidth innerHeight : ℚ,
      0 < innerWidth → 0 < innerHeight →
      0 ≤ clientX → clientX ≤ innerWidth →
      0 ≤ clientY → clientY ≤ innerHeight →
      -1 ≤ (handleMouseMove clientX clientY innerWidth innerHeight).1 ∧
      (handleMouseMove clientX clientY innerWidth innerHeight).1 ≤ 1 ∧
      -1 ≤ (handleMouseMove clientX clientY innerWidth innerHeight).2 ∧
      (handleMouseMove clientX clientY innerWidth innerHeight).2 ≤ 1 := by
  refine ⟨rfl, ?_⟩
  intro cx cy w h hw hh hx0 hxw hy0 hyh
  have hxr : cx / w ≤ 1 := (div_le_one hw).mpr hxw
  have hxl : 0 ≤ cx / w := div_nonneg hx0 hw.le
  have hyr : cy / h ≤ 1 := (div_le_one hh).mpr hyh
  have hyl : 0 ≤ cy / h := div_nonneg hy0 hh.le
  simp only [handleMouseMove]
  refine ⟨by linarith, by linarith, by linarith, by linarith⟩

/-- C5 witness: the pointer-state range property instantiated at pixel
coordinates (1, 1) in a 2 × 2 viewport. -/
theorem mouse_state_in_range_witness :
    -1 ≤ (handleMouseMove 1 1 2 2).1 ∧
    (handleMouseMove 1 1 2 2).1 ≤ 1 ∧
    -1 ≤ (handleMouseMove 1 1 2 2).2 ∧
    (handleMouseMove 1 1 2 2).2 ≤ 1 :=
  mouse_state_in_range.2 1 1 2 2 (by norm_num) (by norm_num) (by norm_num)
    (by norm_num) (by norm_num) (by norm_num)

/-- C6: the hover pointer-enter transition is idempotent: n + 1 consecutive
enter events with no intervening leave produce exactly the state of a single
enter event, whose scale transform is the fixed hovered value. -/
theorem cursorMouseEnter_idempotent :
    (∀ (n : ℕ) (s : CursorStyle),
      cursorMouseEnter^[n + 1] s = cursorMouseEnter s) ∧
    ∀ s : CursorStyle,
      (cursorMouseEnter s).outlineTransform
        = "translate(-50%, -50%) scale(1.5)" := by
  refine ⟨fun n s => ?_, fun s => rfl⟩
  rw [Function.iterate_succ_apply']
  rfl

/-- C10: the pointer-move handler negates the vertical axis: the top edge
maps to y = +1 and the bottom edge to y = -1, while the horizontal axis is
not negated (the left edge maps to x = -1). -/
theorem handleMouseMove_y_negated :
    ∀ clientX clientY innerWidth innerHeight : ℚ,
      0 < innerWidth → 0 < innerHeight →
      (handleMouseMove clientX 0 innerWidth innerHeight).2 = 1 ∧
      (handleMouseMove clientX innerHeight innerWidth innerHeight).2 = -1 ∧
      (handleMouseMove 0 clientY innerWidth innerHeight).1 = -1 := by
  intro cx cy w h hw hh
  simp only [handleMouseMove]
  refine ⟨by norm_num, ?_, by norm_num⟩
  rw [div_self hh.ne']
  norm_num

/-- C10 witness: the axis-orientation property instantiated in a 2 × 2
viewport with pointer coordinate 1 on the free axis. -/
theorem handleMouseMove_y_negated_witness :
    (handleMouseMove 1 0 2 2).2 = 1 ∧
    (handleMouseMove 1 2 2 2).2 = -1 ∧
    (handleMouseMove 0 1 2 2).1 = -1 :=
  handleMouseMove_y_negated 1 1 2 2 (by norm_num) (by norm_num)

end Portfolio
